import Mathlib

/-!
Verification development for `youtube_audio_transcribe.py`.

The program is a sequential batch pipeline: resolve a video or playlist
title, download audio, transcribe it through an external recognition
backend, and merge per-video transcripts.  The embedding below models the
pure data manipulation of the script (string sanitization, path
arithmetic, playlist-JSON field extraction, menu-input parsing) directly,
and models the script's filesystem side effects as explicit state passing
over an association list from absolute path to file content.  External
collaborators (the download tool, the audio decoder, the recognition
backend) are modelled as parameters: the decoded waveform bytes and the
recognition outcome are inputs of the transcriber model.
-/

namespace YT

/-- A filesystem state: an association list from path to file content.
The first binding for a path is the authoritative one. -/
abbrev FS := List (String × String)

/-- Look up the content stored at path `p`. -/
def fsRead (fs : FS) (p : String) : Option String :=
  match fs with
  | [] => none
  | e :: rest => if e.1 = p then some e.2 else fsRead rest p

/-- Model of `open(p, "w")` followed by writing `c`: replace the first
binding of `p`, or create the file if absent. -/
def fsWrite (fs : FS) (p c : String) : FS :=
  match fs with
  | [] => [(p, c)]
  | e :: rest => if e.1 = p then (p, c) :: rest else e :: fsWrite rest p c

/-- Model of `os.remove(p)`: drop every binding of `p`. -/
def fsRemove (fs : FS) (p : String) : FS :=
  match fs with
  | [] => []
  | e :: rest => if e.1 = p then fsRemove rest p else e :: fsRemove rest p

/-- Model of Python `str.strip()` on the character list: drop whitespace
from both ends. -/
def pyStripData (cs : List Char) : List Char :=
  ((cs.dropWhile Char.isWhitespace).reverse.dropWhile Char.isWhitespace).reverse

/-- Model of Python `str.strip()`. -/
def pyStrip (s : String) : String :=
  String.mk (pyStripData s.data)

/-- The reserved filesystem characters of the character class in
`re.sub(r'[<>:"/\\|?*]', '_', video_title)` (source line 20). -/
def reservedChars : List Char := ['<', '>', ':', '\"', '/', '\\', '|', '?', '*']

/-- Per-character action of the substitution on line 20: a reserved
character becomes an underscore, anything else is unchanged. -/
def sanitizeChar (c : Char) : Char :=
  if reservedChars.contains c then '_' else c

/-- Model of `re.sub(r'[<>:"/\\|?*]', '_', s)`: the regex is a single
character class, so the substitution is a character-wise map. -/
def sanitize (s : String) : String :=
  String.mk (s.data.map sanitizeChar)

/-- Model of `get_video_title` (source lines 17-21) as a function of the
raw decoded stdout of the external title query: the title is stripped of
surrounding whitespace and then sanitized. -/
def get_video_title (rawTitle : String) : String :=
  sanitize (pyStrip rawTitle)

/-- Model of Python `str.endswith(suffix)`. -/
def pyEndsWith (s suffix : String) : Bool :=
  suffix.data.isSuffixOf s.data

/-- Index of the last occurrence of `c` in `cs`, if any: Python
`str.rfind`. -/
def rfindIdx (cs : List Char) (c : Char) : Option Nat :=
  (cs.foldl (fun st ch => (st.1 + 1, if ch = c then some st.1 else st.2))
    ((0 : Nat), (none : Option Nat))).2

/-- Model of CPython `posixpath.splitext` on the character list: find the
last `/` and the last `.`; when the dot lies after the separator and the
characters between them are not all dots, split at the dot, otherwise
return the whole path with an empty extension. -/
def splitextData (p : List Char) : List Char × List Char :=
  let sepIndex : Int := match rfindIdx p '/' with
    | some i => (i : Int)
    | none => -1
  let dotIndex : Int := match rfindIdx p '.' with
    | some i => (i : Int)
    | none => -1
  if sepIndex < dotIndex then
    let nameStart : Nat := (sepIndex + 1).toNat
    let stem := (p.drop nameStart).take (dotIndex.toNat - nameStart)
    if stem.any (fun ch => ch != '.') then
      (p.take dotIndex.toNat, p.drop dotIndex.toNat)
    else (p, [])
  else (p, [])

/-- Model of `os.path.splitext` (POSIX). -/
def splitext (s : String) : String × String :=
  (String.mk (splitextData s.data).1, String.mk (splitextData s.data).2)

/-- The intermediate waveform path of line 75:
`os.path.splitext(audio_file)[0] + ".wav"`. -/
def wavPath (audioFile : String) : String :=
  (splitext audioFile).1 ++ ".wav"

/-- A POSIX path is absolute when it begins with a slash. -/
def isAbsolute (p : String) : Bool :=
  match p.data with
  | [] => false
  | c :: _ => c == '/'

/-- Resolution of the path handed to `open`: a relative path is
interpreted against the process working directory. -/
def resolve (cwd p : String) : String :=
  if isAbsolute p then p else cwd ++ "/" ++ p

/-- Outcome of `recognizer.recognize_google(audio)` (line 82), the external
recognition backend: either a transcript text or a
`speech_recognition.RequestError`. -/
inductive RecOutcome
  | success (text : String)
  | requestError (msg : String)

/-- Python runtime errors raised by the modelled code paths. -/
inductive PyError
  | typeError
deriving DecidableEq

/-- Result of a `convert_audio_to_text` call: the filesystem after the
call, the uncaught error if one was raised, and the console lines
printed. -/
structure ConvertResult where
  fs : FS
  err : Option PyError
  logged : List String

/-- Model of `convert_audio_to_text(audio_file, video_title)` (source
lines 61-95).  Step by step:
line 76 writes the decoded waveform (an input of the model, `wavData`) at
`splitext(audio_file)[0] + ".wav"`;
line 78 executes `with speech_recognition.AudioFile(temp_wav_path) as
audio_file:` — the `as audio_file` clause rebinds the local name
`audio_file` to the `AudioFile` object, shadowing the path parameter;
line 82 queries the backend: on `RequestError` the handler on lines 83-85
prints and returns (the waveform file is not removed on this path);
line 87 tests `if video_title:` — a Python truthiness test, which is
false both for `None` and for an empty title string, so only a supplied
non-empty title reaches line 88, where `video_title + ".txt"` is a
relative path that `open` on line 92 resolves against the process
working directory; on the falsy branch, line 90 evaluates
`os.path.splitext(audio_file)[0]` on the shadowed `AudioFile` object,
which raises `TypeError` before any transcript is written;
line 93 writes the backend text verbatim and line 95 removes the
waveform file. -/
def convert_audio_to_text (cwd audio_file : String) (video_title : Option String)
    (rec : RecOutcome) (wavData : String) (fs0 : FS) : ConvertResult :=
  let temp_wav_path := wavPath audio_file
  let fs1 := fsWrite fs0 temp_wav_path wavData
  match rec with
  | RecOutcome.requestError e =>
      ⟨fs1, none, ["Recognition connection failed: " ++ e]⟩
  | RecOutcome.success text =>
      match video_title with
      | some t =>
          if t = "" then ⟨fs1, some PyError.typeError, []⟩
          else
            let output_file_name := t ++ ".txt"
            let fs2 := fsWrite fs1 (resolve cwd output_file_name) text
            ⟨fsRemove fs2 temp_wav_path, none, []⟩
      | none => ⟨fs1, some PyError.typeError, []⟩

/-- A filesystem side effect performed by `merge_text_files`. -/
inductive FsEvent
  | write (path content : String)
  | remove (path : String)
deriving DecidableEq

/-- Application of one side effect to a filesystem state. -/
def applyEvent (fs : FS) : FsEvent → FS
  | FsEvent.write p c => fsWrite fs p c
  | FsEvent.remove p => fsRemove fs p

/-- The selection of line 110: every directory entry whose name ends in
`.txt`, except the merge target `merged_file_name + ".txt"` and the
reserved `filenames.txt`.  The listing is taken before the merge target
is opened, so the selection is over the pre-merge directory state. -/
def mergeSelected (dir : FS) (merged_file_name : String) : FS :=
  dir.filter (fun f =>
    pyEndsWith f.1 ".txt"
      && f.1 != merged_file_name ++ ".txt"
      && f.1 != "filenames.txt")

/-- Content accumulated in the merge target by the loop of lines 113-117:
for each selected file, in listing order, the writes
`"// " + file_name + "\n"`, then the file's content, then `"\n\n"`. -/
def mergedFileContent (dir : FS) (merged_file_name : String) : String :=
  (mergeSelected dir merged_file_name).foldl
    (fun acc f => acc ++ ("// " ++ f.1 ++ "\n") ++ f.2 ++ "\n\n") ""

/-- Modelled from the spec's wording of the merge header format: each
merged section is exactly a header line naming the source file, the
file's unmodified content, and a trailing blank line; the merged output
is the concatenation of the sections. -/
def specSections : FS → String
  | [] => ""
  | f :: rest => ("// " ++ f.1 ++ "\n" ++ f.2 ++ "\n\n") ++ specSections rest

/-- The side effects of `merge_text_files` (lines 109-120) in program
order: one write of the fully accumulated merge target (the file object
is closed when the `with` block ends, before any deletion), then one
removal per selected source file. -/
def mergeTrace (dir : FS) (merged_file_name : String) : List FsEvent :=
  FsEvent.write (merged_file_name ++ ".txt") (mergedFileContent dir merged_file_name)
    :: (mergeSelected dir merged_file_name).map (fun f => FsEvent.remove f.1)

/-- Model of `merge_text_files(directory, merged_file_name)`: the final
directory state after replaying the trace.  Paths are directory-local
names; every path the function touches is of the form
`os.path.join(directory, name)`, so the common directory prefix is
dropped. -/
def merge_text_files (dir : FS) (merged_file_name : String) : FS :=
  (mergeTrace dir merged_file_name).foldl applyEvent dir

/-- JSON documents, as produced by `json.loads` on the output of the
flat-playlist metadata dump. -/
inductive Json
  | null
  | bool (b : Bool)
  | num (n : Int)
  | str (s : String)
  | arr (elems : List Json)
  | obj (fields : List (String × Json))

/-- Lookup of a key among the fields of a JSON object, first binding
wins, as in a Python dict built by `json.loads`. -/
def lookupField (fields : List (String × Json)) (key : String) : Option Json :=
  match fields with
  | [] => none
  | kv :: rest => if kv.1 = key then some kv.2 else lookupField rest key

/-- Model of Python subscription `j[key]` on a parsed JSON value: a
lookup in a JSON object; `none` models the `KeyError`/`TypeError` raised
when the key is missing or the value is not an object. -/
def pyGetItem (j : Json) (key : String) : Option Json :=
  match j with
  | Json.obj fields => lookupField fields key
  | _ => none

/-- Model of a Python list comprehension `[f(item) for item in elems]`
whose body may raise: the whole comprehension fails if any element
fails. -/
def pyListMap (f : Json → Option Json) : List Json → Option (List Json)
  | [] => some []
  | j :: rest =>
      match f j, pyListMap f rest with
      | some v, some vs => some (v :: vs)
      | _, _ => none

/-- Model of `download_playlist` (source lines 41-59) as a function of
the JSON document parsed from the metadata dump of the external tool:
`playlist_title = data['title']`, `entries = data['entries']`,
`titles = [item['title'] for item in entries]`,
`urls = [item['url'] for item in entries]`; `none` models the uncaught
exceptions (missing key, or `entries` not being a list). -/
def download_playlist (data : Json) : Option (Json × List Json × List Json) :=
  match pyGetItem data "title" with
  | none => none
  | some playlist_title =>
      match pyGetItem data "entries" with
      | some (Json.arr entries) =>
          match pyListMap (fun item => pyGetItem item "title") entries,
                pyListMap (fun item => pyGetItem item "url") entries with
          | some titles, some urls => some (playlist_title, titles, urls)
          | _, _ => none
      | _ => none

/-- A playlist entry object `{"title": ..., "url": ...}`. -/
def playlistEntry (it : String × String) : Json :=
  Json.obj [("title", Json.str it.1), ("url", Json.str it.2)]

/-- A playlist document `{"title": ..., "entries": [...]}` with string
titles and urls, the shape the claim quantifies over. -/
def playlistDoc (playlist_title : String) (items : List (String × String)) : Json :=
  Json.obj [("title", Json.str playlist_title),
            ("entries", Json.arr (items.map playlistEntry))]

/-- Numeric value of a decimal digit character. -/
def digitVal (c : Char) : Nat := c.toNat - 48

/-- Continuation of the decimal parse of Python `int()`: after at least
one digit, further digits accumulate and a single underscore is allowed
between two digits. -/
def parseDigitsGo (acc : Nat) : List Char → Option Nat
  | [] => some acc
  | c :: rest =>
      if c = '_' then
        match rest with
        | [] => none
        | d :: rest2 =>
            if d.isDigit then parseDigitsGo (acc * 10 + digitVal d) rest2 else none
      else if c.isDigit then parseDigitsGo (acc * 10 + digitVal c) rest
      else none

/-- Digit-sequence parse of Python `int()`: at least one leading digit. -/
def parseDigits : List Char → Option Nat
  | [] => none
  | c :: rest => if c.isDigit then parseDigitsGo (digitVal c) rest else none

/-- Model of Python `int(s)` on a decimal string: surrounding whitespace
is stripped, an optional single sign is allowed, and the body must be a
nonempty digit sequence (with optional single underscores between
digits); `none` models the raised `ValueError`. -/
def pyInt (s : String) : Option Int :=
  match pyStripData s.data with
  | '+' :: rest => (parseDigits rest).map (fun n => (n : Int))
  | '-' :: rest => (parseDigits rest).map (fun n => -(n : Int))
  | cs => (parseDigits cs).map (fun n => (n : Int))

/-- Terminal behavior of the `__main__` menu (source lines 122-151). -/
inductive MainOutcome
  | singleVideo
  | playlist
  | invalidOption
  | valueError
deriving DecidableEq

/-- Model of the menu dispatch of lines 122-151:
`int(input(...))` raises `ValueError` on a non-integer string (no
handler, so the program crashes before any mode is selected); the value
`1` selects the single-video path, `2` the playlist path, and any other
integer prints `"Invalid option"` and falls off the end of the script. -/
def mainDispatch (menuInput : String) : MainOutcome :=
  match pyInt menuInput with
  | none => MainOutcome.valueError
  | some n =>
      if n = 1 then MainOutcome.singleVideo
      else if n = 2 then MainOutcome.playlist
      else MainOutcome.invalidOption

theorem fsRead_fsWrite (fs : FS) (p c q : String) :
    fsRead (fsWrite fs p c) q = if q = p then some c else fsRead fs q := by
  induction fs with
  | nil =>
    by_cases hqp : q = p
    · subst hqp
      simp [fsRead, fsWrite]
    · have hpq : ¬ p = q := fun h => hqp h.symm
      simp [fsRead, fsWrite, hqp, hpq]
  | cons e rest ih =>
    by_cases hep : e.1 = p
    · by_cases hqp : q = p
      · subst hqp
        simp [fsRead, fsWrite, hep]
      · have hpq : ¬ p = q := fun h => hqp h.symm
        have heq : ¬ e.1 = q := fun h => hqp (h.symm.trans hep)
        simp [fsRead, fsWrite, hep, hqp, hpq, heq]
    · by_cases heq : e.1 = q
      · have hqp : ¬ q = p := fun h => hep (heq.trans h)
        simp [fsRead, fsWrite, hep, heq, hqp]
      · simp [fsRead, fsWrite, hep, heq, ih]

theorem fsRead_fsRemove (fs : FS) (p q : String) :
    fsRead (fsRemove fs p) q = if q = p then none else fsRead fs q := by
  induction fs with
  | nil => simp [fsRead, fsRemove]
  | cons e rest ih =>
    by_cases hep : e.1 = p
    · by_cases hqp : q = p
      · subst hqp
        simp [fsRead, fsRemove, hep, ih]
      · have heq : ¬ e.1 = q := fun h => hqp (h.symm.trans hep)
        have hpq : ¬ p = q := fun h => hqp h.symm
        simp [fsRead, fsRemove, hep, hqp, hpq, heq, ih]
    · by_cases heq : e.1 = q
      · have hqp : ¬ q = p := fun h => hep (heq.trans h)
        simp [fsRead, fsRemove, hep, heq, hqp]
      · simp [fsRead, fsRemove, hep, heq, ih]

/-- If the keys of `fs` are distinct then each listed pair is read back. -/
theorem fsRead_eq_of_mem (fs : FS) (g : String × String)
    (hnd : (fs.map Prod.fst).Nodup) (hg : g ∈ fs) :
    fsRead fs g.1 = some g.2 := by
  induction fs with
  | nil => cases hg
  | cons e rest ih =>
    rcases List.mem_cons.mp hg with h | h
    · subst h
      simp [fsRead]
    · have hne : e.1 ≠ g.1 := by
        intro hcontra
        have : g.1 ∈ rest.map Prod.fst := List.mem_map_of_mem Prod.fst h
        rw [List.map_cons, List.nodup_cons] at hnd
        exact hnd.1 (hcontra ▸ this)
      rw [List.map_cons, List.nodup_cons] at hnd
      simp [fsRead, hne, ih hnd.2 h]

/-- Two suffixes of the same list with the same length coincide. -/
theorem suffix_eq_of_length {α : Type} {l₁ l₂ l : List α}
    (h₁ : l₁ <:+ l) (h₂ : l₂ <:+ l) (hlen : l₁.length = l₂.length) :
    l₁ = l₂ := by
  obtain ⟨a, ha⟩ := h₁
  obtain ⟨b, hb⟩ := h₂
  subst ha
  have hab : b.length = a.length := by
    have := congrArg List.length hb
    simp only [List.length_append] at this
    omega
  exact ((List.append_inj hb hab).2).symm

/-- Strings carrying suffixes of equal length that differ are distinct. -/
theorem ne_of_suffix_ne {x y : String} {e₁ e₂ : List Char}
    (hx : e₁ <:+ x.data) (hy : e₂ <:+ y.data)
    (hlen : e₁.length = e₂.length) (hne : e₁ ≠ e₂) : x ≠ y := by
  intro h
  subst h
  exact hne (suffix_eq_of_length hx hy hlen)

theorem wavPath_suffix (audioFile : String) :
    (String.data ".wav") <:+ (wavPath audioFile).data := by
  unfold wavPath
  rw [String.data_append]
  exact List.suffix_append _ _

theorem resolve_txt_suffix (cwd p : String) :
    (String.data ".txt") <:+ (resolve cwd (p ++ ".txt")).data := by
  unfold resolve
  split
  · rw [String.data_append]
    exact List.suffix_append _ _
  · rw [String.data_append, String.data_append]
    exact (List.suffix_append _ _).trans (List.suffix_append _ _)

theorem wavPath_ne_resolve_txt (audioFile cwd p : String) :
    wavPath audioFile ≠ resolve cwd (p ++ ".txt") :=
  ne_of_suffix_ne (wavPath_suffix audioFile) (resolve_txt_suffix cwd p)
    (by decide) (by decide)

theorem mp3_ne_wavPath {audioFile : String}
    (h : (String.data ".mp3") <:+ audioFile.data) (other : String) :
    audioFile ≠ wavPath other :=
  ne_of_suffix_ne h (wavPath_suffix other) (by decide) (by decide)

theorem mp3_ne_resolve_txt {audioFile : String}
    (h : (String.data ".mp3") <:+ audioFile.data) (cwd p : String) :
    audioFile ≠ resolve cwd (p ++ ".txt") :=
  ne_of_suffix_ne h (resolve_txt_suffix cwd p) (by decide) (by decide)

theorem sanitizeChar_idem (c : Char) : sanitizeChar (sanitizeChar c) = sanitizeChar c := by
  by_cases h : reservedChars.contains c
  · have h1 : sanitizeChar c = '_' := by
      unfold sanitizeChar
      rw [if_pos h]
    rw [h1]
    decide
  · have h1 : sanitizeChar c = c := by
      unfold sanitizeChar
      rw [if_neg h]
    rw [h1, h1]

/-- Claim C6: on a backend connection failure (`RequestError`) the
transcriber logs the error to the console, returns without raising, and
leaves the filesystem with exactly the intermediate waveform file added:
no transcript file is created, and the waveform file remains on disk. -/
theorem convert_requestError_behavior (cwd audio_file : String)
    (vt : Option String) (msg wavData : String) (fs0 : FS) :
    (convert_audio_to_text cwd audio_file vt (RecOutcome.requestError msg) wavData fs0).err = none
    ∧ (convert_audio_to_text cwd audio_file vt (RecOutcome.requestError msg) wavData fs0).logged
        = ["Recognition connection failed: " ++ msg]
    ∧ (convert_audio_to_text cwd audio_file vt (RecOutcome.requestError msg) wavData fs0).fs
        = fsWrite fs0 (wavPath audio_file) wavData
    ∧ fsRead (convert_audio_to_text cwd audio_file vt (RecOutcome.requestError msg) wavData fs0).fs
        (wavPath audio_file) = some wavData := by
  refine ⟨rfl, rfl, rfl, ?_⟩
  show fsRead (fsWrite fs0 (wavPath audio_file) wavData) (wavPath audio_file) = some wavData
  rw [fsRead_fsWrite, if_pos rfl]

/-- Claim C5 (code bug witness): a successful recognition with no
supplied title — exactly how the playlist path calls the transcriber —
raises `TypeError` from `os.path.splitext` applied to the shadowed
`audio_file` variable: the waveform file is left on disk and no
transcript is written, contradicting the function's own docstring. -/
theorem convert_no_title_success_eval :
    (convert_audio_to_text "/work" "/work/P/A.mp3" none
        (RecOutcome.success "hello") "WAVDATA" []).err = some PyError.typeError
    ∧ (convert_audio_to_text "/work" "/work/P/A.mp3" none
        (RecOutcome.success "hello") "WAVDATA" []).fs = [("/work/P/A.wav", "WAVDATA")]
    ∧ fsRead (convert_audio_to_text "/work" "/work/P/A.mp3" none
        (RecOutcome.success "hello") "WAVDATA" []).fs "/work/P/A.txt" = none :=
  ⟨rfl, by decide, by decide⟩

/-- Claim C1 counterexample: in the single-video scenario (working
directory `/cwd`, audio at `/cwd/T/T.mp3`, title `T`) a successful
transcription leaves no file at `/cwd/T/T.txt` — the transcript lands at
`/cwd/T.txt`, the working directory, not the audio file's directory —
and with no title supplied no transcript is produced at all:
the call raises `TypeError`. -/
theorem convert_output_location_counterexample :
    fsRead (convert_audio_to_text "/cwd" "/cwd/T/T.mp3" (some "T")
        (RecOutcome.success "hello") "WAV" []).fs "/cwd/T/T.txt" = none
    ∧ fsRead (convert_audio_to_text "/cwd" "/cwd/T/T.mp3" (some "T")
        (RecOutcome.success "hello") "WAV" []).fs "/cwd/T.txt" = some "hello"
    ∧ (convert_audio_to_text "/cwd" "/cwd/T/T.mp3" none
        (RecOutcome.success "hello") "WAV" []).err = some PyError.typeError
    ∧ fsRead (convert_audio_to_text "/cwd" "/cwd/T/T.mp3" none
        (RecOutcome.success "hello") "WAV" []).fs "/cwd/T/T.txt" = none :=
  ⟨by decide, by decide, rfl, by decide⟩

/-- Claim C1 (amended): when a supplied display title is non-empty (a
truthy Python string) and recognition succeeds, the transcript written
is named `title + ".txt"` and lies at that name resolved against the
process working directory — not necessarily the directory of the input
audio file — and holds the backend text; when no title is supplied, or
the supplied title is the empty string (falsy, so `if video_title:`
takes the same branch as `None`), the call raises `TypeError` (the path
parameter is shadowed by the `with ... as audio_file` binding) after
having written only the intermediate waveform file, and no transcript is
written. -/
theorem convert_output_naming (cwd audio_file t text wavData : String) (fs0 : FS)
    (ht : t ≠ "") :
    fsRead (convert_audio_to_text cwd audio_file (some t)
        (RecOutcome.success text) wavData fs0).fs (resolve cwd (t ++ ".txt")) = some text
    ∧ (convert_audio_to_text cwd audio_file (some t)
        (RecOutcome.success text) wavData fs0).err = none
    ∧ (convert_audio_to_text cwd audio_file none
        (RecOutcome.success text) wavData fs0).err = some PyError.typeError
    ∧ (convert_audio_to_text cwd audio_file none
        (RecOutcome.success text) wavData fs0).fs
        = fsWrite fs0 (wavPath audio_file) wavData
    ∧ (convert_audio_to_text cwd audio_file (some "")
        (RecOutcome.success text) wavData fs0).err = some PyError.typeError
    ∧ (convert_audio_to_text cwd audio_file (some "")
        (RecOutcome.success text) wavData fs0).fs
        = fsWrite fs0 (wavPath audio_file) wavData := by
  have hred : convert_audio_to_text cwd audio_file (some t)
      (RecOutcome.success text) wavData fs0
      = ⟨fsRemove (fsWrite (fsWrite fs0 (wavPath audio_file) wavData)
          (resolve cwd (t ++ ".txt")) text) (wavPath audio_file), none, []⟩ := by
    simp only [convert_audio_to_text]
    rw [if_neg ht]
  refine ⟨?_, ?_, rfl, rfl, rfl, rfl⟩
  · rw [hred]
    show fsRead (fsRemove (fsWrite (fsWrite fs0 (wavPath audio_file) wavData)
        (resolve cwd (t ++ ".txt")) text) (wavPath audio_file))
        (resolve cwd (t ++ ".txt")) = some text
    rw [fsRead_fsRemove,
      if_neg (fun h => wavPath_ne_resolve_txt audio_file cwd t h.symm),
      fsRead_fsWrite, if_pos rfl]
  · rw [hred]

/-- Witness for the amended claim C1 at the concrete single-video
scenario. -/
theorem convert_output_naming_witness :
    ("T" : String) ≠ ""
    ∧ (fsRead (convert_audio_to_text "/cwd" "/cwd/T/T.mp3" (some "T")
          (RecOutcome.success "hello") "WAV" []).fs
          (resolve "/cwd" ("T" ++ ".txt")) = some "hello"
        ∧ (convert_audio_to_text "/cwd" "/cwd/T/T.mp3" (some "T")
            (RecOutcome.success "hello") "WAV" []).err = none
        ∧ (convert_audio_to_text "/cwd" "/cwd/T/T.mp3" none
            (RecOutcome.success "hello") "WAV" []).err = some PyError.typeError
        ∧ (convert_audio_to_text "/cwd" "/cwd/T/T.mp3" none
            (RecOutcome.success "hello") "WAV" []).fs
            = fsWrite [] (wavPath "/cwd/T/T.mp3") "WAV"
        ∧ (convert_audio_to_text "/cwd" "/cwd/T/T.mp3" (some "")
            (RecOutcome.success "hello") "WAV" []).err = some PyError.typeError
        ∧ (convert_audio_to_text "/cwd" "/cwd/T/T.mp3" (some "")
            (RecOutcome.success "hello") "WAV" []).fs
            = fsWrite [] (wavPath "/cwd/T/T.mp3") "WAV") :=
  ⟨by decide, convert_output_naming "/cwd" "/cwd/T/T.mp3" "T" "hello" "WAV" [] (by decide)⟩

/-- Claim C7 counterexample: a successful transcription of
`/w/T/T.mp3` (title supplied, so the call completes) leaves the audio
file on disk — the transcriber never deletes the downloaded audio
artifact, so it is not strictly intermediate. -/
theorem audio_artifact_counterexample :
    fsRead (convert_audio_to_text "/w" "/w/T/T.mp3" (some "T")
        (RecOutcome.success "hi") "WAV" [("/w/T/T.mp3", "MP3")]).fs "/w/T/T.mp3"
      = some "MP3" := by
  decide

/-- Claim C7 (amended): the transcriber never deletes the consumed audio
file — after any `convert_audio_to_text` call, on every code path, a
path ending in `.mp3` is bound exactly as it was before the call, so
the AudioArtifact persists after its consumer has finished. -/
theorem audio_artifact_persists (cwd audio_file : String) (vt : Option String)
    (rec : RecOutcome) (wavData : String) (fs0 : FS)
    (h : (String.data ".mp3") <:+ audio_file.data) :
    fsRead (convert_audio_to_text cwd audio_file vt rec wavData fs0).fs audio_file
      = fsRead fs0 audio_file := by
  cases rec with
  | requestError msg =>
    show fsRead (fsWrite fs0 (wavPath audio_file) wavData) audio_file = fsRead fs0 audio_file
    rw [fsRead_fsWrite, if_neg (mp3_ne_wavPath h audio_file)]
  | success text =>
    cases vt with
    | none =>
      show fsRead (fsWrite fs0 (wavPath audio_file) wavData) audio_file = fsRead fs0 audio_file
      rw [fsRead_fsWrite, if_neg (mp3_ne_wavPath h audio_file)]
    | some t =>
      by_cases htt : t = ""
      · subst htt
        show fsRead (fsWrite fs0 (wavPath audio_file) wavData) audio_file
            = fsRead fs0 audio_file
        rw [fsRead_fsWrite, if_neg (mp3_ne_wavPath h audio_file)]
      · have hred : convert_audio_to_text cwd audio_file (some t)
            (RecOutcome.success text) wavData fs0
            = ⟨fsRemove (fsWrite (fsWrite fs0 (wavPath audio_file) wavData)
                (resolve cwd (t ++ ".txt")) text) (wavPath audio_file), none, []⟩ := by
          simp only [convert_audio_to_text]
          rw [if_neg htt]
        rw [hred]
        show fsRead (fsRemove (fsWrite (fsWrite fs0 (wavPath audio_file) wavData)
            (resolve cwd (t ++ ".txt")) text) (wavPath audio_file)) audio_file
            = fsRead fs0 audio_file
        rw [fsRead_fsRemove, if_neg (mp3_ne_wavPath h audio_file),
          fsRead_fsWrite, if_neg (mp3_ne_resolve_txt h cwd t),
          fsRead_fsWrite, if_neg (mp3_ne_wavPath h audio_file)]

/-- Witness for the amended claim C7 at a concrete input. -/
theorem audio_artifact_persists_witness :
    ((String.data ".mp3") <:+ (String.data "/w/T/T.mp3"))
    ∧ fsRead (convert_audio_to_text "/w" "/w/T/T.mp3" (some "T")
          (RecOutcome.success "hi") "WAV" [("/w/T/T.mp3", "MP3")]).fs "/w/T/T.mp3"
        = fsRead [("/w/T/T.mp3", "MP3")] "/w/T/T.mp3" :=
  ⟨by decide, audio_artifact_persists "/w" "/w/T/T.mp3" (some "T")
      (RecOutcome.success "hi") "WAV" [("/w/T/T.mp3", "MP3")] (by decide)⟩

theorem foldl_sections (l : FS) (acc : String) :
    l.foldl (fun acc f => acc ++ ("// " ++ f.1 ++ "\n") ++ f.2 ++ "\n\n") acc
      = acc ++ specSections l := by
  induction l generalizing acc with
  | nil => simp [specSections]
  | cons f rest ih =>
    rw [List.foldl_cons, ih, specSections]
    simp [String.append_assoc]

theorem foldl_remove_map (l : FS) (fs : FS) :
    (l.map (fun f => FsEvent.remove f.1)).foldl applyEvent fs
      = (l.map Prod.fst).foldl fsRemove fs := by
  induction l generalizing fs with
  | nil => rfl
  | cons f rest ih => simp [applyEvent, ih]

theorem fsRead_foldl_fsRemove (names : List String) (fs : FS) (q : String) :
    fsRead (names.foldl fsRemove fs) q = if q ∈ names then none else fsRead fs q := by
  induction names generalizing fs with
  | nil => simp
  | cons a rest ih =>
    rw [List.foldl_cons, ih, fsRead_fsRemove]
    by_cases hqa : q = a
    · simp [hqa]
    · by_cases hq : q ∈ rest <;> simp [hqa, hq]

theorem mem_mergeSelected (dir : FS) (name : String) (f : String × String) :
    f ∈ mergeSelected dir name ↔
      f ∈ dir ∧ pyEndsWith f.1 ".txt" = true
        ∧ f.1 ≠ name ++ ".txt" ∧ f.1 ≠ "filenames.txt" := by
  unfold mergeSelected
  rw [List.mem_filter]
  simp [Bool.and_eq_true, bne_iff_ne, and_assoc]

theorem merged_name_not_mem_selected (dir : FS) (name : String) :
    (name ++ ".txt") ∉ (mergeSelected dir name).map Prod.fst := by
  intro hmem
  obtain ⟨f, hf, hfe⟩ := List.mem_map.mp hmem
  exact ((mem_mergeSelected dir name f).mp hf).2.2.1 hfe

theorem merge_text_files_unfold (dir : FS) (name : String) :
    merge_text_files dir name
      = ((mergeSelected dir name).map Prod.fst).foldl fsRemove
          (fsWrite dir (name ++ ".txt") (mergedFileContent dir name)) := by
  unfold merge_text_files mergeTrace
  rw [List.foldl_cons, foldl_remove_map]
  rfl

/-- Claim C8: the merged file's content is exactly the concatenation,
over the selected source files in listing order, of sections each of the
form header line `// <originalFileName>`, then the file's unmodified
content, then a blank line before the next section. -/
theorem merged_sections_format (dir : FS) (name : String) :
    mergedFileContent dir name = specSections (mergeSelected dir name) := by
  unfold mergedFileContent
  rw [foldl_sections]
  simp

/-- Claim C3: after `merge_text_files(directory, name)`, the output file
`name + ".txt"` holds exactly the concatenated sections of the selected
files; the selected files are exactly the pre-merge `.txt` entries other
than the merge target and `filenames.txt`; every selected file is
removed; every other file keeps its previous content; and in the side
effect trace the write of the fully accumulated merge target precedes
every removal. -/
theorem merge_text_files_spec (dir : FS) (name : String)
    (hnd : (dir.map Prod.fst).Nodup) :
    fsRead (merge_text_files dir name) (name ++ ".txt")
        = some (mergedFileContent dir name)
    ∧ (∀ f ∈ mergeSelected dir name, fsRead (merge_text_files dir name) f.1 = none)
    ∧ (∀ g ∈ dir, g.1 ∉ (mergeSelected dir name).map Prod.fst →
        g.1 ≠ name ++ ".txt" → fsRead (merge_text_files dir name) g.1 = some g.2)
    ∧ (∀ f : String × String, f ∈ mergeSelected dir name ↔
        f ∈ dir ∧ pyEndsWith f.1 ".txt" = true
          ∧ f.1 ≠ name ++ ".txt" ∧ f.1 ≠ "filenames.txt")
    ∧ (mergeTrace dir name).head?
        = some (FsEvent.write (name ++ ".txt") (mergedFileContent dir name))
    ∧ (∀ e ∈ (mergeTrace dir name).tail, ∃ p, e = FsEvent.remove p) := by
  refine ⟨?_, ?_, ?_, mem_mergeSelected dir name, rfl, ?_⟩
  · rw [merge_text_files_unfold, fsRead_foldl_fsRemove,
      if_neg (merged_name_not_mem_selected dir name), fsRead_fsWrite, if_pos rfl]
  · intro f hf
    rw [merge_text_files_unfold, fsRead_foldl_fsRemove,
      if_pos (List.mem_map_of_mem Prod.fst hf)]
  · intro g hg hnotsel hneq
    rw [merge_text_files_unfold, fsRead_foldl_fsRemove, if_neg hnotsel,
      fsRead_fsWrite, if_neg hneq]
    exact fsRead_eq_of_mem dir g hnd hg
  · intro e he
    have he2 : e ∈ (mergeSelected dir name).map (fun f => FsEvent.remove f.1) := he
    obtain ⟨f, _, rfl⟩ := List.mem_map.mp he2
    exact ⟨f.1, rfl⟩

/-- Witness for claim C3 on a concrete four-file directory. -/
theorem merge_text_files_spec_witness :
    (([("a.txt", "A"), ("b.txt", "B"), ("filenames.txt", "F"),
        ("notes.md", "M")] : FS).map Prod.fst).Nodup
    ∧ (fsRead (merge_text_files [("a.txt", "A"), ("b.txt", "B"), ("filenames.txt", "F"),
          ("notes.md", "M")] "merged") ("merged" ++ ".txt")
          = some (mergedFileContent [("a.txt", "A"), ("b.txt", "B"), ("filenames.txt", "F"),
              ("notes.md", "M")] "merged")
        ∧ (∀ f ∈ mergeSelected [("a.txt", "A"), ("b.txt", "B"), ("filenames.txt", "F"),
            ("notes.md", "M")] "merged",
            fsRead (merge_text_files [("a.txt", "A"), ("b.txt", "B"), ("filenames.txt", "F"),
              ("notes.md", "M")] "merged") f.1 = none)
        ∧ (∀ g ∈ ([("a.txt", "A"), ("b.txt", "B"), ("filenames.txt", "F"),
            ("notes.md", "M")] : FS),
            g.1 ∉ (mergeSelected [("a.txt", "A"), ("b.txt", "B"), ("filenames.txt", "F"),
              ("notes.md", "M")] "merged").map Prod.fst →
            g.1 ≠ "merged" ++ ".txt" →
            fsRead (merge_text_files [("a.txt", "A"), ("b.txt", "B"), ("filenames.txt", "F"),
              ("notes.md", "M")] "merged") g.1 = some g.2)
        ∧ (∀ f : String × String,
            f ∈ mergeSelected [("a.txt", "A"), ("b.txt", "B"), ("filenames.txt", "F"),
              ("notes.md", "M")] "merged" ↔
              f ∈ ([("a.txt", "A"), ("b.txt", "B"), ("filenames.txt", "F"),
                ("notes.md", "M")] : FS)
                ∧ pyEndsWith f.1 ".txt" = true
                ∧ f.1 ≠ "merged" ++ ".txt" ∧ f.1 ≠ "filenames.txt")
        ∧ (mergeTrace [("a.txt", "A"), ("b.txt", "B"), ("filenames.txt", "F"),
            ("notes.md", "M")] "merged").head?
            = some (FsEvent.write ("merged" ++ ".txt")
                (mergedFileContent [("a.txt", "A"), ("b.txt", "B"), ("filenames.txt", "F"),
                  ("notes.md", "M")] "merged"))
        ∧ (∀ e ∈ (mergeTrace [("a.txt", "A"), ("b.txt", "B"), ("filenames.txt", "F"),
            ("notes.md", "M")] "merged").tail, ∃ p, e = FsEvent.remove p)) :=
  ⟨by decide, merge_text_files_spec [("a.txt", "A"), ("b.txt", "B"), ("filenames.txt", "F"),
      ("notes.md", "M")] "merged" (by decide)⟩

theorem playlistEntry_title (it : String × String) :
    pyGetItem (playlistEntry it) "title" = some (Json.str it.1) := by
  simp [playlistEntry, pyGetItem, lookupField]

theorem playlistEntry_url (it : String × String) :
    pyGetItem (playlistEntry it) "url" = some (Json.str it.2) := by
  simp [playlistEntry, pyGetItem, lookupField]

theorem pyListMap_title (items : List (String × String)) :
    pyListMap (fun item => pyGetItem item "title") (items.map playlistEntry)
      = some (items.map (fun it => Json.str it.1)) := by
  induction items with
  | nil => rfl
  | cons it rest ih => simp [pyListMap, playlistEntry_title, ih]

theorem pyListMap_url (items : List (String × String)) :
    pyListMap (fun item => pyGetItem item "url") (items.map playlistEntry)
      = some (items.map (fun it => Json.str it.2)) := by
  induction items with
  | nil => rfl
  | cons it rest ih => simp [pyListMap, playlistEntry_url, ih]

/-- Claim C2: for a playlist JSON document with a top-level string
`title` and an `entries` array of objects with string `title` and `url`
fields, `download_playlist` returns the top-level title together with
the entry titles and urls as index-aligned lists in source order; in
particular the example document yields
`("MyList", ["A", "B"], ["u1", "u2"])`. -/
theorem download_playlist_alignment :
    (∀ (pt : String) (items : List (String × String)),
      download_playlist (playlistDoc pt items)
        = some (Json.str pt, items.map (fun it => Json.str it.1),
            items.map (fun it => Json.str it.2)))
    ∧ download_playlist (playlistDoc "MyList" [("A", "u1"), ("B", "u2")])
        = some (Json.str "MyList", [Json.str "A", Json.str "B"],
            [Json.str "u1", Json.str "u2"]) := by
  refine ⟨?_, rfl⟩
  intro pt items
  have h1 : pyGetItem (playlistDoc pt items) "title" = some (Json.str pt) := by
    simp [playlistDoc, pyGetItem, lookupField]
  have h2 : pyGetItem (playlistDoc pt items) "entries"
      = some (Json.arr (items.map playlistEntry)) := by
    simp [playlistDoc, pyGetItem, lookupField]
  simp [download_playlist, h1, h2, pyListMap_title, pyListMap_url]

/-- Claim C9: title sanitization is idempotent — applying the
reserved-character replacement to an already-sanitized string is a
no-op. -/
theorem sanitize_idempotent (s : String) : sanitize (sanitize s) = sanitize s := by
  have hmap : ∀ l : List Char,
      (l.map sanitizeChar).map sanitizeChar = l.map sanitizeChar := by
    intro l
    induction l with
    | nil => rfl
    | cons c cs ih => simp [ih, sanitizeChar_idem c]
  show String.mk (((s.data.map sanitizeChar)).map sanitizeChar)
      = String.mk (s.data.map sanitizeChar)
  rw [hmap]

/-- Claim C4: the resolved title contains no reserved filesystem
character; position by position, a reserved character of the stripped
raw title becomes a single underscore and any other character is
preserved verbatim, and the length is unchanged. -/
theorem get_video_title_sanitized (s : String) (i : Nat) (c : Char)
    (h : (pyStrip s).data[i]? = some c) :
    (get_video_title s).data[i]? = some (if reservedChars.contains c then '_' else c)
    ∧ ((get_video_title s).data.all (fun d => !(reservedChars.contains d))) = true
    ∧ (get_video_title s).data.length = (pyStrip s).data.length := by
  have hdata : (get_video_title s).data = (pyStrip s).data.map sanitizeChar := rfl
  refine ⟨?_, ?_, ?_⟩
  · rw [hdata, List.getElem?_map, h]
    rfl
  · rw [hdata, List.all_eq_true]
    intro d hd
    obtain ⟨c0, _, rfl⟩ := List.mem_map.mp hd
    by_cases hc : reservedChars.contains c0
    · have hs : sanitizeChar c0 = '_' := by
        unfold sanitizeChar
        rw [if_pos hc]
      rw [hs]
      decide
    · have hs : sanitizeChar c0 = c0 := by
        unfold sanitizeChar
        rw [if_neg hc]
      rw [hs]
      simpa using hc
  · rw [hdata, List.length_map]

/-- Witness for claim C4 at the concrete raw title `" a<b "`. -/
theorem get_video_title_sanitized_witness :
    (pyStrip " a<b ").data[1]? = some '<'
    ∧ ((get_video_title " a<b ").data[1]?
          = some (if reservedChars.contains '<' then '_' else '<')
        ∧ ((get_video_title " a<b ").data.all (fun d => !(reservedChars.contains d))) = true
        ∧ (get_video_title " a<b ").data.length = (pyStrip " a<b ").data.length) :=
  ⟨by decide, get_video_title_sanitized " a<b " 1 '<' (by decide)⟩

/-- Claim C10: a first menu input that is not the decimal representation
of an integer makes `int()` raise an uncaught `ValueError` before any
mode is selected (for example on empty or non-numeric input), and the
`"Invalid option"` clean-exit path is reached exactly for integer inputs
other than `1` and `2`. -/
theorem main_menu_nonnumeric_crash :
    mainDispatch "" = MainOutcome.valueError
    ∧ mainDispatch "abc" = MainOutcome.valueError
    ∧ pyInt "" = none
    ∧ pyInt "abc" = none
    ∧ mainDispatch " 3 " = MainOutcome.invalidOption
    ∧ (∀ s : String, mainDispatch s = MainOutcome.valueError ↔ pyInt s = none)
    ∧ (∀ s : String, mainDispatch s = MainOutcome.invalidOption ↔
        ∃ n : Int, pyInt s = some n ∧ n ≠ 1 ∧ n ≠ 2) := by
  refine ⟨by decide, by decide, by decide, by decide, by decide, ?_, ?_⟩
  · intro s
    cases hp : pyInt s with
    | none => simp [mainDispatch, hp]
    | some n =>
      simp only [mainDispatch, hp]
      split_ifs <;> simp
  · intro s
    cases hp : pyInt s with
    | none => simp [mainDispatch, hp]
    | some n =>
      simp only [mainDispatch, hp]
      split_ifs with h1 h2
      · subst h1
        simp
      · subst h2
        simp
      · simp [h1, h2]

end YT
